import Mathlib

/-!
# Verification of the WASDE report-parsing pipeline

Shallow embedding of `src/wasde_functions.py` (brazilian-soybean-forecasting).
A spreadsheet cell is modelled as `Option String` (`none` is pandas `NaN`),
a raw sheet as a list of rows, and a pandas `DataFrame` as a header of
column labels plus a list of rows.  String operations of the source
(`str.lower`, `str.strip`, `str.replace`, `split('_')[0]`, the regex search
used by the boundary detectors) are embedded as executable character-list
functions; fallible pandas operations (label lookup, positional indexing)
return `Except`.
-/

/-- A spreadsheet / DataFrame cell: `none` models pandas `NaN`. -/
abbrev Cell := Option String

/-- One row of cells. -/
abbrev Row := List Cell

/-- A raw grid of cells (one sheet), as consumed by the layout locator. -/
abbrev Grid := List Row

/-- A pandas DataFrame: column labels plus rows (row `i`, column `j` is
`rows[i][j]`).  Well-formed frames have every row of length `header.length`. -/
structure Df where
  header : List String
  rows : List Row
deriving DecidableEq

/-- Errors of the embedded pipeline.  `layoutError` models the uncaught
`IndexError` raised when a boundary list is shorter than the pipeline
requires (the spec's `LayoutError`); `keyError` models pandas `KeyError`
on a missing column label; `oob` models `IndexError` from positional
indexing past the end of a frame. -/
inductive DfError
  | layoutError
  | keyError
  | oob
deriving DecidableEq

instance {α β : Type} [DecidableEq α] [DecidableEq β] : DecidableEq (Except α β) := fun a b =>
  match a, b with
  | .ok x, .ok y => if h : x = y then .isTrue (by rw [h]) else .isFalse (by simp [h])
  | .error x, .error y => if h : x = y then .isTrue (by rw [h]) else .isFalse (by simp [h])
  | .ok _, .error _ => .isFalse (by simp)
  | .error _, .ok _ => .isFalse (by simp)

/-! ## Embedded Python string primitives -/

/-- Python `astype(str)` on a cell: `NaN` prints as `"nan"`. -/
def pyStr : Cell → String
  | none => "nan"
  | some s => s

/-- Python `str.lower()` (ASCII fragment, which covers the report data). -/
def strLower (s : String) : String := ⟨s.data.map Char.toLower⟩

/-- Characters matched by Python's regex `\s` (ASCII fragment). -/
def isSpaceChar (c : Char) : Bool :=
  c = ' ' || c = '\t' || c = '\n' || c = '\r' || c = '\x0b' || c = '\x0c'

/-- Python's regex `\w` (word character, ASCII fragment): used for the
`\b` word boundary of the crop-year pattern. -/
def isWordChar (c : Char) : Bool := c.isAlphanum || c = '_'

/-- `str.replace('\xa0', ' ')`: replace non-breaking spaces by spaces. -/
def replaceNbsp (l : List Char) : List Char :=
  l.map (fun ch => if ch = '\xa0' then ' ' else ch)

/-- `str.replace(r'\s+', ' ', regex=True)`: collapse every run of
whitespace into a single space.  The boolean records whether the previous
character was part of a whitespace run. -/
def collapseWs : Bool → List Char → List Char
  | _, [] => []
  | prevSpace, c :: rest =>
    if isSpaceChar c then
      if prevSpace then collapseWs true rest
      else ' ' :: collapseWs true rest
    else c :: collapseWs false rest

/-- The cell normalisation performed by both boundary detectors
(`wasde_functions.py` lines 65 and 80): `astype(str)`, lower-case,
replace `\xa0` by a space, collapse whitespace runs. -/
def normCell (c : Cell) : String :=
  ⟨collapseWs false (replaceNbsp ((pyStr c).data.map Char.toLower))⟩

/-- Literal (non-regex) substring test, used to express what the spec
calls "contains the literal token". -/
def strContainsSub (s pat : String) : Bool :=
  (List.range (s.data.length + 1)).any (fun i => pat.data.isPrefixOf (s.data.drop i))

/-- Python `'beginning' in val` over a lower-cased cell (line 56). -/
def cellHasBeginning (c : Cell) : Bool :=
  strContainsSub (strLower (pyStr c)) "beginning"

/-- A row of the raw grid matches the header probe of
`detect_header_start` when any cell contains `"beginning"`. -/
def rowHasBeginning (r : Row) : Bool := r.any cellHasBeginning

/-! ## The crop-year regex `\b\d{4}\s*/\s*\d{2}(?:\s*Est\.?)?`

`str.contains` only asks whether a match exists somewhere in the string,
and the trailing `(?:\s*Est\.?)?` group is optional, so a string matches
iff the mandatory part `\b\d{4}\s*/\s*\d{2}` matches at some position. -/

/-- Does `\d{4}\s*/\s*\d{2}` match starting exactly at the head of `l`? -/
def cropYearAt (l : List Char) : Bool :=
  match l with
  | a :: b :: c :: d :: rest =>
    a.isDigit && b.isDigit && c.isDigit && d.isDigit &&
      (match rest.dropWhile isSpaceChar with
       | '/' :: r2 =>
         (match r2.dropWhile isSpaceChar with
          | x :: y :: _ => x.isDigit && y.isDigit
          | _ => false)
       | _ => false)
  | _ => false

/-- Word boundary before the four digits: the previous character (if any)
is not a word character.  (The first pattern character is a digit, hence a
word character, so `\b` reduces to this condition.) -/
def boundaryOK : Option Char → Bool
  | none => true
  | some p => !(isWordChar p)

/-- Search for `\b\d{4}\s*/\s*\d{2}` anywhere in the character list;
the first argument is the character preceding the current position. -/
def cropYearSearch : Option Char → List Char → Bool
  | _, [] => false
  | prev, c :: rest =>
    (boundaryOK prev && cropYearAt (c :: rest)) || cropYearSearch (some c) rest

/-- A DataFrame row matches the crop-year pattern (lines 65-66 / 80-81):
some cell, after normalisation, contains a crop-year token. -/
def rowCropYear (r : Row) : Bool :=
  r.any (fun c => cropYearSearch none (normCell c).data)

/-! ## Layout locator (`detect_header_start`, `find_line`, `find_line_v2`) -/

/-- The scanning loop of `detect_header_start` (lines 54-57): try each
index in turn; `df.iloc[i]` on a missing row raises `IndexError`. -/
def detectAux (g : Grid) : List Nat → Except DfError Nat
  | [] => .ok 7
  | i :: rest =>
    match g.get? i with
    | none => .error .oob
    | some row => if rowHasBeginning row then .ok i else detectAux g rest

/-- `detect_header_start(df, min_row=3, max_row=15)` (lines 53-58): scan
rows 3..14 for a cell containing `"beginning"`; return 7 if none matches. -/
def detect_header_start (g : Grid) : Except DfError Nat :=
  detectAux g (List.range' 3 12)

/-- Modelled from the spec's words for claim C7 only (the fallback
behaviour the claim asserts): the first row index in `[3, 15)` whose
cells contain `"beginning"`, and the fixed fallback `7` otherwise. -/
def hdrSpecFirst (g : Grid) : Nat :=
  ((List.range' 3 12).filter (fun i =>
    match g.get? i with
    | some row => rowHasBeginning row
    | none => false)).headD 7

/-- `find_line` (lines 61-68): the index of the last row matching the
crop-year pattern, or `None` when no row matches. -/
def find_line (g : Grid) : Option Nat :=
  (List.range g.length).foldl
    (fun acc i => if rowCropYear (g.getD i []) then some i else acc) none

/-- `find_line_v2` (lines 71-84): every matching row index, in order. -/
def find_line_v2 (g : Grid) : List Nat :=
  (List.range g.length).filter (fun i => rowCropYear (g.getD i []))

/-! ## Generic DataFrame operations -/

/-- First position of a column label (pandas label lookup uses the first
matching position for our frames, whose labels of interest are unique). -/
def idxOfName : List String → String → Option Nat
  | [], _ => none
  | c :: rest, n => if c = n then some 0 else (idxOfName rest n).map (· + 1)

/-- `df[col]` / label lookup: `KeyError` when the label is absent. -/
def Df.getColIdx (d : Df) (n : String) : Except DfError Nat :=
  match idxOfName d.header n with
  | some i => .ok i
  | none => .error .keyError

/-- The values of a named column (`df[col]` as a series). -/
def Df.getColVals (d : Df) (n : String) : Except DfError (List Cell) :=
  match d.getColIdx n with
  | .error e => .error e
  | .ok i => .ok (d.rows.map (fun r => r.getD i none))

/-- `df[df[n] == v]`: keep the rows whose cell in column `n` equals `v`. -/
def Df.filterEq (d : Df) (n v : String) : Except DfError Df :=
  match d.getColIdx n with
  | .error e => .error e
  | .ok i => .ok ⟨d.header, d.rows.filter (fun r => r.getD i none == some v)⟩

/-- Keep the columns whose label satisfies `p` (used for `drop(columns=…)`
and for `df.loc[:, mask]`-style label masks). -/
def keepByName (d : Df) (p : String → Bool) : Df :=
  ⟨d.header.filter p,
   d.rows.map (fun r => ((d.header.zip r).filter (fun x => p x.1)).map (·.2))⟩

/-- `df.drop(columns=[n])`: `KeyError` when the label is absent. -/
def Df.dropColStrict (d : Df) (n : String) : Except DfError Df :=
  if d.header.contains n then .ok (keepByName d (fun c => c != n)) else .error .keyError

/-- `df.drop(columns=[n], errors='ignore')`. -/
def Df.dropColIgnore (d : Df) (n : String) : Df :=
  keepByName d (fun c => c != n)

/-- `df.head(1)`. -/
def Df.head1 (d : Df) : Df := ⟨d.header, d.rows.take 1⟩

/-- `df.iloc[:-1]`: drop the trailing row. -/
def Df.dropLastRow (d : Df) : Df := ⟨d.header, d.rows.dropLast⟩

/-- `df.dropna(how='all')`: keep rows having at least one non-null cell. -/
def dropAllNaRows (d : Df) : Df :=
  ⟨d.header, d.rows.filter (fun r => r.any (fun c => c.isSome))⟩

/-- `df.dropna()` (default `how='any'`): keep fully non-null rows. -/
def dropnaAnyRows (d : Df) : Df :=
  ⟨d.header, d.rows.filter (fun r => r.all (fun c => c.isSome))⟩

/-- `df.dropna(axis=1, how='all')`: keep columns with a non-null value. -/
def dropAllNaCols (d : Df) : Df :=
  let keep := fun j => d.rows.any (fun r => (r.getD j none).isSome)
  ⟨(d.header.enum.filter (fun x => keep x.1)).map (·.2),
   d.rows.map (fun r => (r.enum.filter (fun x => keep x.1)).map (·.2))⟩

/-- `df.dropna(subset=names)` (default `how='any'`): `KeyError` when a
subset label is absent, else keep the rows whose subset cells are all
non-null. -/
def dropnaSubsetAny (d : Df) (names : List String) : Except DfError Df :=
  match names.mapM (fun n => match idxOfName d.header n with
    | some i => some i
    | none => none) with
  | none => .error .keyError
  | some idxs =>
    .ok ⟨d.header, d.rows.filter (fun r => idxs.all (fun i => (r.getD i none).isSome))⟩

/-- `df[name] = value`: overwrite an existing column with a constant, or
append a new one. -/
def addConstCol (d : Df) (n v : String) : Df :=
  match idxOfName d.header n with
  | some i => ⟨d.header, d.rows.map (fun r => r.set i (some v))⟩
  | none => ⟨d.header ++ [n], d.rows.map (fun r => r ++ [some v])⟩

/-- `df.iloc[:, 0] = df.iloc[:, 0].shift(1)` (the merged-header repair):
the first column's values move down one row, its first cell becomes null. -/
def shiftFirstCol (d : Df) : Df :=
  ⟨d.header,
   d.rows.enum.map (fun x =>
     (if x.1 = 0 then none else (d.rows.getD (x.1 - 1) []).headD none) :: x.2.drop 1)⟩

/-! ## Column normalizer (`clean_columns`, `reset_column_names`) -/

/-- Python `str.strip()` (ASCII whitespace fragment). -/
def strStrip (s : String) : String :=
  ⟨((s.data.dropWhile isSpaceChar).reverse.dropWhile isSpaceChar).reverse⟩

/-- `clean_columns` (lines 87-90): `str(col).strip().lower()` on every
label, then keep only the first occurrence of each duplicated label
(`df.loc[:, ~df.columns.duplicated()]`, a positional mask). -/
def clean_columns (d : Df) : Df :=
  let h := d.header.map (fun c => strLower (strStrip c))
  let keep := fun j => !((h.take j).contains (h.getD j ""))
  ⟨(h.enum.filter (fun x => keep x.1)).map (·.2),
   d.rows.map (fun r => (r.enum.filter (fun x => keep x.1)).map (·.2))⟩

/-- Python `col.split('_')[0]`: the prefix of the label before its first
underscore (the whole label when it has none). -/
def splitHeadUnderscore (s : String) : String :=
  ⟨s.data.takeWhile (fun c => c ≠ '_')⟩

/-- The per-label renaming of `reset_column_names` (line 94). -/
def resetName (c : String) : String :=
  if c = "country" ∨ c = "report_date" then c else splitHeadUnderscore c

/-- `reset_column_names` (lines 93-94): strip everything after the first
underscore from every label except `country` and `report_date`. -/
def reset_column_names (d : Df) : Df := ⟨d.header.map resetName, d.rows⟩

/-! ## Country pivoter (`pivot_df`, lines 97-112) -/

/-- Python `country.lower().replace(' ', '')`: the country slug. -/
def countrySlug (country : String) : String :=
  ⟨(strLower country).data.filter (fun c => c ≠ ' ')⟩

/-- The pivot rename `f"{col.lower()}_{commodity}_{crop_stage}_{slug}"`
(line 106). -/
def slugName (col commodity stage country : String) : String :=
  strLower col ++ "_" ++ commodity ++ "_" ++ stage ++ "_" ++ countrySlug country

/-- Rename every pivot column of a per-country slice (line 106); the
rename dictionary is keyed by the elements of `pivotCols`. -/
def renamePivot (d : Df) (pivotCols : List String) (commodity stage country : String) : Df :=
  ⟨d.header.map (fun c =>
     if pivotCols.contains c then slugName c commodity stage country else c),
   d.rows⟩

/-- One iteration of the country loop of `pivot_df` (lines 100-106):
select the country's rows, drop `country`, keep the first row; on the
first iteration capture the `report_date` series, on later ones drop the
`report_date` column; finally apply the pivot rename. -/
def pivotStep (df : Df) (pivotCols : List String) (commodity stage : String)
    (isFirst : Bool) (country : String) : Except DfError (Df × Option (List Cell)) :=
  match df.filterEq "country" country with
  | .error e => .error e
  | .ok f0 =>
    match f0.dropColStrict "country" with
    | .error e => .error e
    | .ok f1 =>
      let f2 := f1.head1
      if isFirst then
        match f2.getColVals "report_date" with
        | .error e => .error e
        | .ok rdc => .ok (renamePivot f2 pivotCols commodity stage country, some rdc)
      else
        .ok (renamePivot (f2.dropColIgnore "report_date") pivotCols commodity stage country, none)

/-- `pd.concat([a, b], axis=1)` for the loop's accumulation: headers are
appended; the shorter side is padded with null rows (index alignment). -/
def hconcat (a b : Df) : Df :=
  let n := max a.rows.length b.rows.length
  let pad := fun (d : Df) =>
    d.rows ++ List.replicate (n - d.rows.length) (List.replicate d.header.length (none : Cell))
  ⟨a.header ++ b.header, List.zipWith (· ++ ·) (pad a) (pad b)⟩

/-- The country loop of `pivot_df`, accumulating the column-wise
concatenation and the captured `report_date` series. -/
def pivotLoop (df : Df) (pivotCols : List String) (commodity stage : String) :
    List String → Bool → Df → Option (List Cell) → Except DfError (Df × Option (List Cell))
  | [], _, acc, rdc => .ok (acc, rdc)
  | c :: rest, isFirst, acc, rdc =>
    match pivotStep df pivotCols commodity stage isFirst c with
    | .error e => .error e
    | .ok (piece, r0) =>
      pivotLoop df pivotCols commodity stage rest false (hconcat acc piece)
        (if isFirst then r0 else rdc)

/-- `df.insert(0, n, col)`: insert a leading column, aligning the series
on the frame's row index. -/
def Df.insertCol0 (d : Df) (n : String) (col : List Cell) : Df :=
  ⟨n :: d.header, (List.range d.rows.length).map (fun i => col.getD i none :: d.rows.getD i [])⟩

/-- `pivot_df` (lines 97-112): per-country slices concatenated
column-wise; if the loop ran, any `report_date` column is dropped from
the accumulation and the captured series is re-inserted first. -/
def pivot_df (df : Df) (countries pivotCols : List String) (commodity stage : String) :
    Except DfError Df :=
  match pivotLoop df pivotCols commodity stage countries true ⟨[], []⟩ none with
  | .error e => .error e
  | .ok (dfp, rdc) =>
    match rdc with
    | none => .ok dfp
    | some col =>
      let dfp' := if dfp.header.contains "report_date"
        then keepByName dfp (fun c => c != "report_date") else dfp
      .ok (dfp'.insertCol0 "report_date" col)

/-! ## Block segmenter: the per-row first-cell filter (lines 142-143,
258-259, 353-354, 470-471, 588-589)

`~df.iloc[:, 0].astype(str).str.contains('Est.')` uses pandas' default
`regex=True`, so the dot of `'Est.'` matches any character except a
newline: a first cell matches iff it contains `'E','s','t'` followed by
one more (non-newline) character. -/

/-- Regex search for `Est.` (dot = any character but `'\n'`). -/
def estDotMatch (s : String) : Bool :=
  (List.range s.data.length).any (fun i =>
    (s.data.getD i ' ' == 'E') && (s.data.getD (i + 1) ' ' == 's') &&
    (s.data.getD (i + 2) ' ' == 't') && decide (i + 3 < s.data.length) &&
    (s.data.getD (i + 3) '\n' != '\n'))

/-- `df[~df.iloc[:, 0].astype(str).str.contains('Est.')]`: drop the rows
whose first cell matches the `Est.` pattern. -/
def estFilterStep (d : Df) : Df :=
  ⟨d.header, d.rows.filter (fun r => !(estDotMatch (pyStr (r.getD 0 none))))⟩

/-! ## Commodity segmentation (single-sheet commodities)

`process_soybean` lines 347-368; `process_soybean_oil` lines 464-485 and
`process_soybean_meal` lines 582-603 are verbatim copies of the same
logic, and are embedded as separate definitions, as in the source.  The
input is the raw frame after header application and `report_date` tagging
(the steps whose behaviour no claim concerns).  Indexing `broken_line[0]`
/ `broken_line[1]` on a list with fewer than two boundary matches raises
(`IndexError` in Python, the spec's `LayoutError`). -/

def soybeanSegments (raw : Df) : Except DfError (Df × Df × Df) :=
  match find_line_v2 raw.rows with
  | b0 :: b1 :: _ =>
    let cur0 : Df := ⟨raw.header, raw.rows.take b0⟩
    let nxt0 : Df := ⟨raw.header, (raw.rows.take b1).drop (b0 + 1)⟩
    let out0 : Df := ⟨raw.header, raw.rows.drop (b1 + 1)⟩
    let cur1 := dropAllNaRows (estFilterStep cur0)
    let nxt1 := dropAllNaRows (estFilterStep nxt0)
    let cur2 := addConstCol cur1 "crop_stage" "current year"
    let nxt2 := addConstCol nxt1 "crop_stage" "next year"
    let out2 := addConstCol out0 "crop_stage" "outlook year"
    let cur3 := dropAllNaCols cur2
    let nxt3 := dropAllNaCols nxt2
    let out3 := dropAllNaCols out2
    let out4 := shiftFirstCol out3
    match dropnaSubsetAny cur3 ["Production", "Exports"] with
    | .error e => .error e
    | .ok cur4 =>
      match dropnaSubsetAny nxt3 ["Production", "Exports"] with
      | .error e => .error e
      | .ok nxt4 =>
        match dropnaSubsetAny out4 ["Production", "Exports"] with
        | .error e => .error e
        | .ok out5 => .ok (cur4, nxt4, out5)
  | _ => .error .layoutError

def soybeanOilSegments (raw : Df) : Except DfError (Df × Df × Df) :=
  match find_line_v2 raw.rows with
  | b0 :: b1 :: _ =>
    let cur0 : Df := ⟨raw.header, raw.rows.take b0⟩
    let nxt0 : Df := ⟨raw.header, (raw.rows.take b1).drop (b0 + 1)⟩
    let out0 : Df := ⟨raw.header, raw.rows.drop (b1 + 1)⟩
    let cur1 := dropAllNaRows (estFilterStep cur0)
    let nxt1 := dropAllNaRows (estFilterStep nxt0)
    let cur2 := addConstCol cur1 "crop_stage" "current year"
    let nxt2 := addConstCol nxt1 "crop_stage" "next year"
    let out2 := addConstCol out0 "crop_stage" "outlook year"
    let cur3 := dropAllNaCols cur2
    let nxt3 := dropAllNaCols nxt2
    let out3 := dropAllNaCols out2
    let out4 := shiftFirstCol out3
    match dropnaSubsetAny cur3 ["Production", "Exports"] with
    | .error e => .error e
    | .ok cur4 =>
      match dropnaSubsetAny nxt3 ["Production", "Exports"] with
      | .error e => .error e
      | .ok nxt4 =>
        match dropnaSubsetAny out4 ["Production", "Exports"] with
        | .error e => .error e
        | .ok out5 => .ok (cur4, nxt4, out5)
  | _ => .error .layoutError

def soybeanMealSegments (raw : Df) : Except DfError (Df × Df × Df) :=
  match find_line_v2 raw.rows with
  | b0 :: b1 :: _ =>
    let cur0 : Df := ⟨raw.header, raw.rows.take b0⟩
    let nxt0 : Df := ⟨raw.header, (raw.rows.take b1).drop (b0 + 1)⟩
    let out0 : Df := ⟨raw.header, raw.rows.drop (b1 + 1)⟩
    let cur1 := dropAllNaRows (estFilterStep cur0)
    let nxt1 := dropAllNaRows (estFilterStep nxt0)
    let cur2 := addConstCol cur1 "crop_stage" "current year"
    let nxt2 := addConstCol nxt1 "crop_stage" "next year"
    let out2 := addConstCol out0 "crop_stage" "outlook year"
    let cur3 := dropAllNaCols cur2
    let nxt3 := dropAllNaCols nxt2
    let out3 := dropAllNaCols out2
    let out4 := shiftFirstCol out3
    match dropnaSubsetAny cur3 ["Production", "Exports"] with
    | .error e => .error e
    | .ok cur4 =>
      match dropnaSubsetAny nxt3 ["Production", "Exports"] with
      | .error e => .error e
      | .ok nxt4 =>
        match dropnaSubsetAny out4 ["Production", "Exports"] with
        | .error e => .error e
        | .ok out5 => .ok (cur4, nxt4, out5)
  | _ => .error .layoutError

/-! ## Secondary-sheet repair (multi-sheet commodities)

`process_wheat` lines 152-154 and `process_corn` lines 270-272: on the
already-headered secondary sheet, drop all-null columns, shift the first
data column down one row, drop all-null rows.  (The following line, which
drops columns whose label is `NaN`, is an identity here because the
embedding's labels are strings.) -/

def wheatSheet2Repair (d : Df) : Df :=
  dropAllNaRows (shiftFirstCol (dropAllNaCols d))

def cornSheet2Repair (d : Df) : Df :=
  dropAllNaRows (shiftFirstCol (dropAllNaCols d))

/-! ## Long-form assembly

`pd.concat([...], ignore_index=True)` aligns columns by label (order of
first appearance), filling missing cells with nulls. -/

/-- Column-aligned row-wise concatenation of two frames. -/
def vconcat2 (a b : Df) : Df :=
  let h := a.header ++ b.header.filter (fun c => !(a.header.contains c))
  let rein := fun (src : List String) (r : Row) =>
    h.map (fun c => match idxOfName src c with
      | some i => r.getD i none
      | none => (none : Cell))
  ⟨h, a.rows.map (rein a.header) ++ b.rows.map (rein b.header)⟩

def vconcat3 (a b c : Df) : Df := vconcat2 (vconcat2 a b) c

/-- `process_wheat` lines 185-187: concatenate the stage blocks, drop
rows with any null, tag with the commodity, drop the trailing row. -/
def assembleLong_wheat (cur nxt out : Df) : Df :=
  (addConstCol (dropnaAnyRows (vconcat3 cur nxt out)) "commodity" "wheat").dropLastRow

/-- `process_corn` lines 306-309. -/
def assembleLong_corn (cur nxt out : Df) : Df :=
  (addConstCol (dropnaAnyRows (vconcat3 cur nxt out)) "commodity" "corn").dropLastRow

/-- `process_soybean` lines 398-399: concatenate, drop rows with any
null, tag with the commodity — the source has no trailing-row drop here. -/
def assembleLong_soybean (cur nxt out : Df) : Df :=
  addConstCol (dropnaAnyRows (vconcat3 cur nxt out)) "commodity" "soybean"

/-- `process_soybean_oil` lines 515-516. -/
def assembleLong_soybean_oil (cur nxt out : Df) : Df :=
  addConstCol (dropnaAnyRows (vconcat3 cur nxt out)) "commodity" "soybean_oil"

/-- `process_soybean_meal` lines 633-634. -/
def assembleLong_soybean_meal (cur nxt out : Df) : Df :=
  addConstCol (dropnaAnyRows (vconcat3 cur nxt out)) "commodity" "soybean_meal"

/-- Modelled from the spec's words for claim C1 only: the long table the
Assemble step is claimed to build — concatenate the three stage blocks
row-wise, tag with the commodity name.  (The claim then asserts the
trailing row of this table is dropped for all five commodities.) -/
def longTagged (cur nxt out : Df) (commodity : String) : Df :=
  addConstCol (dropnaAnyRows (vconcat3 cur nxt out)) "commodity" commodity

/-! ## The wide-track tail of `process_soybean` (claim C6)

Lines 424, 428-429, 435, 439 for the current-year stage: strip the stage
suffixes, compute the country list (`df['country'].unique()`, first-seen
order) and the pivot columns, pivot, and clean the resulting labels. -/

/-- First-seen-order de-duplication (`pandas.Series.unique`). -/
def dedupFirstGo : List String → List String → List String
  | [], _ => []
  | x :: xs, seen => if seen.contains x then dedupFirstGo xs seen else x :: dedupFirstGo xs (x :: seen)

def dedupFirst (l : List String) : List String := dedupFirstGo l []

/-- `df['country'].unique()` as a list of strings (every country cell of
the frames this is run on is a string). -/
def colUnique (d : Df) (n : String) : Except DfError (List String) :=
  match idxOfName d.header n with
  | none => .error .keyError
  | some i => .ok (dedupFirst (d.rows.map (fun r => pyStr (r.getD i none))))

def soybeanWideCy (block : Df) : Except DfError Df :=
  let b := reset_column_names block
  match colUnique b "country" with
  | .error e => .error e
  | .ok countries =>
    let pivotCols := b.header.filter (fun c => !(c == "country" || c == "report_date"))
    match pivot_df b countries pivotCols "soybean" "cy" with
    | .error e => .error e
    | .ok p => .ok (clean_columns p)

/-! # Theorems -/

/-! ## Helper lemmas for the boundary detectors -/

lemma getLast?_cons_eq {α : Type} (a : α) (l : List α) :
    (a :: l).getLast? = (l.getLast?).elim (some a) some := by
  induction l generalizing a with
  | nil => rfl
  | cons b t ih =>
    rw [List.getLast?_cons_cons, ih b]
    cases ht : t.getLast? <;> simp [ih b, ht]

lemma foldl_lastMatch (p : Nat → Bool) (l : List Nat) :
    ∀ acc : Option Nat,
      l.foldl (fun a i => if p i then some i else a) acc
        = ((l.filter p).getLast?).elim acc some := by
  induction l with
  | nil => intro acc; rfl
  | cons i t ih =>
    intro acc
    simp only [List.foldl_cons, List.filter_cons]
    by_cases h : p i
    · simp only [h, if_true, ih (some i), getLast?_cons_eq]
      cases ht : (t.filter p).getLast? <;> simp [ht]
    · simp only [h, if_false, ih acc, Bool.false_eq_true]

lemma getLast?_eq_none_iff {α : Type} (l : List α) : l.getLast? = none ↔ l = [] := by
  cases l with
  | nil => simp
  | cons a t =>
    rw [getLast?_cons_eq]
    cases ht : t.getLast? <;> simp

/-- **C8.** The single-boundary detector refines the all-boundaries
detector: `find_line` returns exactly the last element of
`find_line_v2`'s result (`None` exactly when that result is empty), and
`find_line_v2` returns its matching indices in ascending order. -/
theorem C8_find_line_is_last_of_v2 (g : Grid) :
    find_line g = (find_line_v2 g).getLast?
    ∧ (find_line g = none ↔ find_line_v2 g = [])
    ∧ (find_line_v2 g).Sorted (· < ·) := by
  have h1 : find_line g = (find_line_v2 g).getLast? := by
    unfold find_line find_line_v2
    rw [foldl_lastMatch]
    cases h : ((List.range g.length).filter (fun i => rowCropYear (g.getD i []))).getLast? <;>
      simp [h]
  refine ⟨h1, ?_, ?_⟩
  · rw [h1, getLast?_eq_none_iff]
  · exact (List.pairwise_lt_range g.length).filter _

/-! ## C7: header detection -/

lemma detectAux_inBounds (g : Grid) (l : List Nat) (h : ∀ i ∈ l, i < g.length) :
    detectAux g l = .ok ((l.filter (fun i =>
      match g.get? i with
      | some row => rowHasBeginning row
      | none => false)).headD 7) := by
  induction l with
  | nil => rfl
  | cons i t ih =>
    have hi : i < g.length := h i (List.mem_cons_self i t)
    obtain ⟨row, hrow⟩ : ∃ row, g.get? i = some row := by
      cases hg : g.get? i with
      | none => exact absurd (List.get?_eq_none.mp hg) (by omega)
      | some row => exact ⟨row, rfl⟩
    simp only [detectAux, hrow, List.filter_cons]
    by_cases hb : rowHasBeginning row
    · simp [hb]
    · simp only [hb, Bool.false_eq_true, if_false]
      exact ih (fun j hj => h j (List.mem_cons_of_mem _ hj))

/-- **C7 (amended).** On every grid with at least 15 rows (so the scan
never reads past the end), `detect_header_start` returns the first row
index in `[3, 15)` whose cells contain `"beginning"`, and the fixed
fallback 7 when no row in that range matches. -/
theorem C7_header_scan_with_fallback (g : Grid) (h : 15 ≤ g.length) :
    detect_header_start g = .ok (hdrSpecFirst g) := by
  unfold detect_header_start hdrSpecFirst
  exact detectAux_inBounds g _ (fun i hi => by
    have hm := List.mem_range'_1.mp hi
    omega)

/-- **C7 (counterexample).** On a grid shorter than the scan range with
no matching row, `detect_header_start` raises an out-of-bounds error
(`df.iloc[i]` raises `IndexError`) instead of returning the fallback 7
that the claim asserts for every grid with no match in range. -/
theorem C7_cex_short_grid :
    detect_header_start ([] : Grid) = .error .oob
    ∧ hdrSpecFirst ([] : Grid) = 7
    ∧ (Except.error DfError.oob : Except DfError Nat) ≠ .ok 7 := by
  refine ⟨rfl, rfl, by decide⟩

/-- Witness for C7: a concrete 15-row grid with no `"beginning"` cell. -/
theorem C7_header_scan_with_fallback_witness :
    15 ≤ ([[some "x"], [some "x"], [some "x"], [some "x"], [some "x"],
           [some "x"], [some "x"], [some "x"], [some "x"], [some "x"],
           [some "x"], [some "x"], [some "x"], [some "x"], [some "x"]] : Grid).length
    ∧ detect_header_start
        ([[some "x"], [some "x"], [some "x"], [some "x"], [some "x"],
          [some "x"], [some "x"], [some "x"], [some "x"], [some "x"],
          [some "x"], [some "x"], [some "x"], [some "x"], [some "x"]] : Grid) = .ok 7 := by
  refine ⟨by decide, ?_⟩
  rw [C7_header_scan_with_fallback _ (by decide)]
  decide

/-! ## C3: dual-boundary failure -/

/-- **C3.** Whenever the crop-year pattern matches fewer than two rows of
the raw grid, each single-sheet (dual-boundary) pipeline fails with the
layout error (the uncaught `IndexError` on `broken_line[1]`, the spec's
`LayoutError`) instead of returning any blocks. -/
theorem C3_dual_boundary_layout_error (raw : Df)
    (h : (find_line_v2 raw.rows).length < 2) :
    soybeanSegments raw = .error .layoutError
    ∧ soybeanOilSegments raw = .error .layoutError
    ∧ soybeanMealSegments raw = .error .layoutError := by
  match hv : find_line_v2 raw.rows with
  | [] => exact ⟨by simp [soybeanSegments, hv], by simp [soybeanOilSegments, hv],
      by simp [soybeanMealSegments, hv]⟩
  | [b] => exact ⟨by simp [soybeanSegments, hv], by simp [soybeanOilSegments, hv],
      by simp [soybeanMealSegments, hv]⟩
  | b0 :: b1 :: t => rw [hv] at h; simp at h; omega

/-- Witness for C3: a one-row grid with no crop-year token. -/
theorem C3_dual_boundary_layout_error_witness :
    (find_line_v2 ([[some "hello"]] : Grid)).length < 2
    ∧ soybeanSegments ⟨["Country"], [[some "hello"]]⟩ = .error .layoutError :=
  ⟨by decide,
   (C3_dual_boundary_layout_error ⟨["Country"], [[some "hello"]]⟩ (by decide)).1⟩

/-! ## C4: the Est-row filter -/

/-- **C4 (amended).** The segmenter's row filter drops exactly the rows
whose first cell matches the regex `Est.` — in which the dot is a
wildcard for any non-newline character, pandas' default `regex=True` —
together with the all-null rows.  A first cell of `"2024/25 Est."` is
dropped, but so is e.g. `"Estimate"`, which does not contain the literal
four-character sequence `Est.`. -/
theorem C4_est_filter_regex_semantics :
    (∀ (d : Df) (r : Row),
      r ∈ (dropAllNaRows (estFilterStep d)).rows ↔
        r ∈ d.rows ∧ estDotMatch (pyStr (r.getD 0 none)) = false
          ∧ r.any (fun c => c.isSome) = true)
    ∧ estDotMatch "2024/25 Est." = true
    ∧ estDotMatch "Estimate" = true
    ∧ strContainsSub "Estimate" "Est." = false := by
  refine ⟨?_, by decide, by decide, by decide⟩
  intro d r
  simp only [dropAllNaRows, estFilterStep, List.mem_filter, Bool.not_eq_true']
  tauto

/-- **C4 (counterexample).** A row whose first cell is `"Estimate"` does
not contain the literal character sequence `"Est."`, yet the filter
removes it: the claim's "not removed by this filter" part is false. -/
theorem C4_cex_regex_dot_wildcard :
    strContainsSub "Estimate" "Est." = false
    ∧ (dropAllNaRows (estFilterStep
        ⟨["country", "production"], [[some "Estimate", some "1"]]⟩)).rows = [] := by
  exact ⟨by decide, by decide⟩

/-! ## C5: suffix stripping -/

/-- **C5 (amended).** `reset_column_names` leaves `country` and
`report_date` unchanged and replaces every other label by its prefix
before the first underscore.  This recovers the canonical field name only
for fields without an underscore (`production`, `imports`, `exports`);
the multi-word canonical fields are truncated to their first word
(`beginning_stocks`, `ending_stocks` → `beginning`, `ending`;
`domestic_feed`, `domestic_crush`, `domestic_total` → `domestic`). -/
theorem C5_reset_column_names_behaviour :
    (∀ c : String, ¬(c = "country" ∨ c = "report_date") →
      resetName c = splitHeadUnderscore c)
    ∧ resetName "country" = "country"
    ∧ resetName "report_date" = "report_date"
    ∧ resetName "production_soybean_cy" = "production"
    ∧ resetName "imports_wheat_ny" = "imports"
    ∧ resetName "exports_corn_oy" = "exports"
    ∧ resetName "beginning_stocks_soybean_cy" = "beginning"
    ∧ resetName "domestic_feed_wheat_cy" = "domestic"
    ∧ resetName "domestic_crush_soybean_cy" = "domestic"
    ∧ resetName "domestic_total_soybean_cy" = "domestic"
    ∧ resetName "ending_stocks_soybean_meal_oy" = "ending" := by
  refine ⟨?_, by decide, by decide, by decide, by decide, by decide, by decide,
    by decide, by decide, by decide, by decide⟩
  intro c hc
  simp [resetName, hc]

/-- Witness for C5's general clause at a concrete stage-suffixed label. -/
theorem C5_reset_column_names_behaviour_witness :
    ¬("beginning_stocks_soybean_cy" = "country" ∨ "beginning_stocks_soybean_cy" = "report_date")
    ∧ resetName "beginning_stocks_soybean_cy" = splitHeadUnderscore "beginning_stocks_soybean_cy" :=
  ⟨by decide, C5_reset_column_names_behaviour.1 "beginning_stocks_soybean_cy" (by decide)⟩

/-- **C5 (counterexample).** Stripping at the first underscore does not
recover the canonical field name `beginning_stocks`: the stage-suffixed
column `beginning_stocks_soybean_cy` is renamed to `beginning`. -/
theorem C5_cex_multiword_field_truncated :
    resetName "beginning_stocks_soybean_cy" = "beginning"
    ∧ "beginning" ≠ "beginning_stocks" := by
  exact ⟨by decide, by decide⟩

/-! ## C9: pivot with an empty country list -/

/-- **C9.** With an empty `countries` list, `pivot_df` returns the empty
table (no columns — in particular no `report_date` column — and no rows)
and no error: a no-op result, not an exception. -/
theorem C9_pivot_empty_countries (df : Df) (pivotCols : List String)
    (commodity stage : String) :
    pivot_df df [] pivotCols commodity stage = .ok ⟨[], []⟩
    ∧ "report_date" ∉ (Df.mk [] []).header := by
  exact ⟨rfl, by simp⟩

/-! ## C1: long-table assembly and the trailing-row drop -/

/-- **C1 (amended).** The long-form assembly concatenates the three
stage blocks row-wise, drops rows with any null, and tags with the
commodity name; the trailing row is then dropped for wheat and corn
only — the soybean, soybean-oil and soybean-meal pipelines return the
tagged long table without dropping its trailing row. -/
theorem C1_trailing_drop_only_multi_sheet (cur nxt out : Df) :
    assembleLong_wheat cur nxt out = (longTagged cur nxt out "wheat").dropLastRow
    ∧ assembleLong_corn cur nxt out = (longTagged cur nxt out "corn").dropLastRow
    ∧ assembleLong_soybean cur nxt out = longTagged cur nxt out "soybean"
    ∧ assembleLong_soybean_oil cur nxt out = longTagged cur nxt out "soybean_oil"
    ∧ assembleLong_soybean_meal cur nxt out = longTagged cur nxt out "soybean_meal" :=
  ⟨rfl, rfl, rfl, rfl, rfl⟩

/-- **C1 (counterexample).** On three concrete one-row stage blocks the
soybean long table keeps all three rows: it is not the claimed
trailing-row-dropped table (which has two). -/
theorem C1_cex_soybean_keeps_trailing_row :
    assembleLong_soybean ⟨["country", "report_date"], [[some "a", some "2024-01-01"]]⟩
        ⟨["country", "report_date"], [[some "a", some "2024-01-01"]]⟩
        ⟨["country", "report_date"], [[some "a", some "2024-01-01"]]⟩
      ≠ (longTagged ⟨["country", "report_date"], [[some "a", some "2024-01-01"]]⟩
          ⟨["country", "report_date"], [[some "a", some "2024-01-01"]]⟩
          ⟨["country", "report_date"], [[some "a", some "2024-01-01"]]⟩ "soybean").dropLastRow
    ∧ (assembleLong_soybean ⟨["country", "report_date"], [[some "a", some "2024-01-01"]]⟩
        ⟨["country", "report_date"], [[some "a", some "2024-01-01"]]⟩
        ⟨["country", "report_date"], [[some "a", some "2024-01-01"]]⟩).rows.length = 3 := by
  exact ⟨by decide, by decide⟩

/-! ## C2: where the first-column shift repair runs -/

/-- A concrete single-sheet raw frame (post header application and
`report_date` tagging) with crop-year boundary rows at indices 1 and 3;
used to observe the segmentation pipelines. -/
def rawSoyDemo : Df :=
  ⟨["Country", "Production", "Exports", "report_date"],
   [[some "United States", some "1", some "2", some "2024-01-01"],
    [some "2023/24", some "x", some "y", some "2024-01-01"],
    [some "Brazil", some "3", some "4", some "2024-01-01"],
    [some "2024/25", some "x", some "y", some "2024-01-01"],
    [some "Argentina", some "9", some "8", some "2024-01-01"],
    [none, some "7", some "6", some "2024-01-01"]]⟩

/-- The outlook block `rawSoyDemo` produces: its first column is the raw
outlook slice's first column shifted down one row. -/
def outSoyShifted : Df :=
  ⟨["Country", "Production", "Exports", "report_date", "crop_stage"],
   [[none, some "9", some "8", some "2024-01-01", some "outlook year"],
    [some "Argentina", some "7", some "6", some "2024-01-01", some "outlook year"]]⟩

/-- What the outlook block of `rawSoyDemo` would be had the shift repair
not been applied (first column kept in place). -/
def outSoyUnshifted : Df :=
  ⟨["Country", "Production", "Exports", "report_date", "crop_stage"],
   [[some "Argentina", some "9", some "8", some "2024-01-01", some "outlook year"],
    [none, some "7", some "6", some "2024-01-01", some "outlook year"]]⟩

/-- The current- and next-year blocks `rawSoyDemo` produces. -/
def curSoyDemo : Df :=
  ⟨["Country", "Production", "Exports", "report_date", "crop_stage"],
   [[some "United States", some "1", some "2", some "2024-01-01", some "current year"]]⟩

def nxtSoyDemo : Df :=
  ⟨["Country", "Production", "Exports", "report_date", "crop_stage"],
   [[some "Brazil", some "3", some "4", some "2024-01-01", some "next year"]]⟩

/-- **C2 (counterexample).** The soybean pipeline — a single-sheet
commodity — applies the first-column shift to its outlook-year slice:
on `rawSoyDemo` the returned outlook block has the shifted first column
and differs from the unshifted block, contradicting "never applied to
any block of the single-sheet commodities". -/
theorem C2_cex_shift_on_single_sheet_outlook :
    soybeanSegments rawSoyDemo = .ok (curSoyDemo, nxtSoyDemo, outSoyShifted)
    ∧ outSoyShifted ≠ outSoyUnshifted := by
  exact ⟨by decide, by decide⟩

/-- **C2 (amended).** The shift-first-data-column-down-by-one repair is
applied to the secondary-sheet (outlook) block of the multi-sheet
commodities (wheat, corn) *and* to the outlook-year slice of each
single-sheet commodity (soybean, soybean oil, soybean meal): on concrete
inputs all five pipelines produce a shifted first column. -/
theorem C2_shift_applied_to_all_outlook_blocks :
    wheatSheet2Repair ⟨["A", "B"], [[some "x", some "1"], [some "y", some "2"]]⟩
      = ⟨["A", "B"], [[none, some "1"], [some "x", some "2"]]⟩
    ∧ cornSheet2Repair ⟨["A", "B"], [[some "x", some "1"], [some "y", some "2"]]⟩
      = ⟨["A", "B"], [[none, some "1"], [some "x", some "2"]]⟩
    ∧ soybeanSegments rawSoyDemo = .ok (curSoyDemo, nxtSoyDemo, outSoyShifted)
    ∧ soybeanOilSegments rawSoyDemo = .ok (curSoyDemo, nxtSoyDemo, outSoyShifted)
    ∧ soybeanMealSegments rawSoyDemo = .ok (curSoyDemo, nxtSoyDemo, outSoyShifted)
    ∧ outSoyShifted ≠ outSoyUnshifted := by
  exact ⟨by decide, by decide, by decide, by decide, by decide, by decide⟩

/-! ## C6: the domestic_crush / domestic_total collision -/

/-- A current-year soybean-family block (one country) carrying both
stage-suffixed domestic fields, with symbolic values: `a` is the
`domestic_crush` value, `b` the `domestic_total` value, `r` the report
date. -/
def blockDomestic (a b r : String) : Df :=
  ⟨["country", "report_date", "domestic_crush_soybean_cy", "domestic_total_soybean_cy"],
   [[some "United States", some r, some a, some b]]⟩

/-- **C6.** For every pair of domestic values, suffix stripping renames
both `domestic_crush_soybean_cy` and `domestic_total_soybean_cy` to the
same label `domestic`; after pivoting, `clean_columns`' de-duplication
keeps only the first occurrence, so the returned wide table has exactly
one domestic column, carrying the first field's value `a` — the second
field's value `b` is silently absent whatever it was. -/
theorem C6_domestic_field_silently_dropped (a b r : String) :
    soybeanWideCy (blockDomestic a b r)
      = .ok ⟨["report_date", "domestic_soybean_cy_unitedstates"], [[some r, some a]]⟩
    ∧ (reset_column_names (blockDomestic a b r)).header
      = ["country", "report_date", "domestic", "domestic"] :=
  ⟨rfl, rfl⟩

/-! ## C10: column count of the pivoted table -/

/-- The labels contributed by the non-first countries of the pivot loop:
each country contributes every pivot column, slug-renamed. -/
def stageHdr (P : List String) (com st : String) : List String → List String
  | [] => []
  | c :: cs => P.map (fun p => slugName p com st c) ++ stageHdr P com st cs

lemma stageHdr_length (P : List String) (com st : String) (cs : List String) :
    (stageHdr P com st cs).length = cs.length * P.length := by
  induction cs with
  | nil => simp [stageHdr]
  | cons c cs ih =>
    simp only [stageHdr, List.length_append, List.length_map, ih, List.length_cons]
    rw [Nat.succ_mul]
    omega

lemma mem_stageHdr {P : List String} {com st : String} {cs : List String} {x : String}
    (h : x ∈ stageHdr P com st cs) : ∃ c p, x = slugName p com st c := by
  induction cs with
  | nil => simp [stageHdr] at h
  | cons c cs ih =>
    simp only [stageHdr, List.mem_append, List.mem_map] at h
    rcases h with ⟨p, _, rfl⟩ | h
    · exact ⟨c, p, rfl⟩
    · exact ih h

/-- Number of `'_'` characters in a string. -/
def usCount (s : String) : Nat := s.data.count '_'

lemma usCount_append (s t : String) : usCount (s ++ t) = usCount s + usCount t := by
  cases s; cases t
  simp [usCount, String.data, List.count_append]

/-- A slug-renamed pivot column never collides with `report_date`: the
slug contains at least three underscores, `report_date` exactly one. -/
lemma slugName_ne_report_date (col com st cty : String) :
    slugName col com st cty ≠ "report_date" := by
  intro h
  have hc := congrArg usCount h
  simp only [slugName, usCount_append] at hc
  have e1 : usCount "_" = 1 := by decide
  have e2 : usCount "report_date" = 1 := by decide
  rw [e1, e2] at hc
  omega

lemma hconcat_header (a b : Df) : (hconcat a b).header = a.header ++ b.header := rfl

lemma pivotStep_rest_shape (P : List String) (rows : List Row) (com st c : String)
    (hN : ("country" :: "report_date" :: P).Nodup) :
    ∃ piece, pivotStep ⟨"country" :: "report_date" :: P, rows⟩ P com st false c
        = .ok (piece, none)
      ∧ piece.header = P.map (fun p => slugName p com st c) := by
  obtain ⟨h1, h2⟩ := List.nodup_cons.mp hN
  obtain ⟨h3, _⟩ := List.nodup_cons.mp h2
  have hcP : "country" ∉ P := fun hx => h1 (List.mem_cons_of_mem _ hx)
  have hfilc : P.filter (fun x => x != "country") = P :=
    List.filter_eq_self.mpr (fun x hx => by
      simp only [bne_iff_ne, ne_eq, decide_not, decide_eq_true_eq]
      exact fun e => hcP (e ▸ hx))
  have hfilr : P.filter (fun x => x != "report_date") = P :=
    List.filter_eq_self.mpr (fun x hx => by
      simp only [bne_iff_ne, ne_eq, decide_not, decide_eq_true_eq]
      exact fun e => h3 (e ▸ hx))
  have emap : P.map (fun x => if P.contains x then slugName x com st c else x)
      = P.map (fun p => slugName p com st c) :=
    List.map_congr_left (fun p hp => by rw [if_pos (List.elem_iff.mpr hp)])
  have key : pivotStep ⟨"country" :: "report_date" :: P, rows⟩ P com st false c
      = .ok (renamePivot
          (Df.dropColIgnore
            (Df.head1 (keepByName
              ⟨"country" :: "report_date" :: P,
               rows.filter (fun r => r.getD 0 none == some c)⟩
              (fun x => x != "country")))
            "report_date") P com st c, none) := rfl
  refine ⟨_, key, ?_⟩
  have hstep1 : ("country" :: "report_date" :: P).filter (fun x => x != "country")
      = "report_date" :: P := by simp [List.filter_cons, hfilc]
  have hstep2 : ("report_date" :: P).filter (fun x => x != "report_date") = P := by
    simp [List.filter_cons, hfilr]
  simp only [renamePivot, Df.dropColIgnore, Df.head1, keepByName]
  rw [hstep1, hstep2]
  exact emap

lemma pivotStep_first_shape (P : List String) (rows : List Row) (com st c : String)
    (hN : ("country" :: "report_date" :: P).Nodup) :
    ∃ piece col, pivotStep ⟨"country" :: "report_date" :: P, rows⟩ P com st true c
        = .ok (piece, some col)
      ∧ piece.header = "report_date" :: P.map (fun p => slugName p com st c) := by
  obtain ⟨h1, h2⟩ := List.nodup_cons.mp hN
  obtain ⟨h3, _⟩ := List.nodup_cons.mp h2
  have hcP : "country" ∉ P := fun hx => h1 (List.mem_cons_of_mem _ hx)
  have hfilc : P.filter (fun x => x != "country") = P :=
    List.filter_eq_self.mpr (fun x hx => by
      simp only [bne_iff_ne, ne_eq, decide_not, decide_eq_true_eq]
      exact fun e => hcP (e ▸ hx))
  have hrdP : (P.contains "report_date") = false := by
    rw [Bool.eq_false_iff]
    exact fun hcon => h3 (List.elem_iff.mp hcon)
  have emap : P.map (fun x => if P.contains x then slugName x com st c else x)
      = P.map (fun p => slugName p com st c) :=
    List.map_congr_left (fun p hp => by rw [if_pos (List.elem_iff.mpr hp)])
  have key : pivotStep ⟨"country" :: "report_date" :: P, rows⟩ P com st true c
      = .ok (renamePivot
          (Df.head1 (keepByName
            ⟨"country" :: "report_date" :: P,
             rows.filter (fun r => r.getD 0 none == some c)⟩
            (fun x => x != "country"))) P com st c,
          some ((Df.head1 (keepByName
            ⟨"country" :: "report_date" :: P,
             rows.filter (fun r => r.getD 0 none == some c)⟩
            (fun x => x != "country"))).rows.map (fun r => r.getD 0 none))) := rfl
  refine ⟨_, _, key, ?_⟩
  have hstep1 : ("country" :: "report_date" :: P).filter (fun x => x != "country")
      = "report_date" :: P := by simp [List.filter_cons, hfilc]
  simp only [renamePivot, Df.head1, keepByName]
  rw [hstep1]
  simp only [List.map_cons, hrdP, Bool.false_eq_true, if_false]
  rw [emap]

lemma pivotLoop_rest_shape (P : List String) (rows : List Row) (com st : String)
    (hN : ("country" :: "report_date" :: P).Nodup) :
    ∀ (cs : List String) (acc : Df) (rdc : Option (List Cell)),
      ∃ dfp, pivotLoop ⟨"country" :: "report_date" :: P, rows⟩ P com st cs false acc rdc
          = .ok (dfp, rdc)
        ∧ dfp.header = acc.header ++ stageHdr P com st cs := by
  intro cs
  induction cs with
  | nil =>
    intro acc rdc
    exact ⟨acc, rfl, by simp [stageHdr]⟩
  | cons c cs ih =>
    intro acc rdc
    obtain ⟨piece, hstep, hphdr⟩ := pivotStep_rest_shape P rows com st c hN
    obtain ⟨dfp, hloop, hhdr⟩ := ih (hconcat acc piece) rdc
    refine ⟨dfp, ?_, ?_⟩
    · simp only [pivotLoop, hstep]
      exact hloop
    · rw [hhdr, hconcat_header, hphdr]
      simp [stageHdr, List.append_assoc]

/-- **C10.** Over a block whose columns are exactly `country`,
`report_date` and the pivot columns (all distinct), `pivot_df` with a
non-empty country list succeeds and its result has exactly
`1 + len(countries) * len(pivot_columns)` columns: one `report_date`
column counted once, plus `len(pivot_columns)` per country. -/
theorem C10_pivot_column_count (df : Df) (countries pivotCols : List String)
    (commodity stage : String)
    (hH : df.header = "country" :: "report_date" :: pivotCols)
    (hN : df.header.Nodup)
    (hne : countries ≠ []) :
    ∃ res, pivot_df df countries pivotCols commodity stage = .ok res
      ∧ res.header.length = 1 + countries.length * pivotCols.length := by
  obtain ⟨hdr, rows⟩ := df
  simp only at hH
  subst hH
  simp only at hN
  match countries, hne with
  | c0 :: cs, _ =>
    obtain ⟨piece, col0, hstep, hphdr⟩ :=
      pivotStep_first_shape pivotCols rows commodity stage c0 hN
    obtain ⟨dfp, hloop, hhdr⟩ :=
      pivotLoop_rest_shape pivotCols rows commodity stage hN cs
        (hconcat ⟨[], []⟩ piece) (some col0)
    have hdfp : dfp.header
        = "report_date" :: (pivotCols.map (fun p => slugName p commodity stage c0)
            ++ stageHdr pivotCols commodity stage cs) := by
      rw [hhdr, hconcat_header, hphdr]
      simp
    have hmem : ∀ x ∈ pivotCols.map (fun p => slugName p commodity stage c0)
        ++ stageHdr pivotCols commodity stage cs, (x != "report_date") = true := by
      intro x hx
      simp only [bne_iff_ne, ne_eq, decide_not, decide_eq_true_eq]
      rcases List.mem_append.mp hx with hx1 | hx2
      · obtain ⟨p, _, rfl⟩ := List.mem_map.mp hx1
        exact slugName_ne_report_date p commodity stage c0
      · obtain ⟨cc, pp, rfl⟩ := mem_stageHdr hx2
        exact slugName_ne_report_date pp commodity stage cc
    have hcont : (dfp.header.contains "report_date") = true := by
      rw [hdfp]
      exact List.elem_iff.mpr (List.mem_cons_self _ _)
    have run : pivot_df ⟨"country" :: "report_date" :: pivotCols, rows⟩
        (c0 :: cs) pivotCols commodity stage
        = .ok ((keepByName dfp (fun x => x != "report_date")).insertCol0
            "report_date" col0) := by
      simp only [pivot_df, pivotLoop, hstep, if_true]
      rw [hloop]
      simp only [if_pos hcont]
    refine ⟨_, run, ?_⟩
    simp only [Df.insertCol0, keepByName, List.length_cons, hdfp, List.filter_cons]
    simp only [bne_self_eq_false, Bool.false_eq_true, if_false]
    rw [List.filter_eq_self.mpr hmem]
    simp only [List.length_append, List.length_map, stageHdr_length, List.length_cons]
    ring

/-- Witness for C10: two countries, one pivot column — the pivoted table
has `1 + 2 * 1 = 3` columns. -/
theorem C10_pivot_column_count_witness :
    ∃ res, pivot_df ⟨["country", "report_date", "production"],
        [[some "United States", some "2024-01-01", some "1"],
         [some "Brazil", some "2024-01-01", some "2"]]⟩
        ["United States", "Brazil"] ["production"] "soybean" "cy" = .ok res
      ∧ res.header.length = 3 :=
  C10_pivot_column_count
    ⟨["country", "report_date", "production"],
     [[some "United States", some "2024-01-01", some "1"],
      [some "Brazil", some "2024-01-01", some "2"]]⟩
    ["United States", "Brazil"] ["production"] "soybean" "cy"
    rfl (by decide) (by decide)
